import Mathlib

/-!
Shallow embedding of the EmergencyRestore batched data-transfer and
verification engine (mssql disaster-recovery scripts).  Pure fragments of
the JavaScript are translated into Lean functions; every database query
issued by the code is represented by a field of an explicit environment
record holding the outcome that query would return, so the control flow
of each function can be reproduced faithfully and executed on concrete
inputs.  The theorems at the end of the file settle the frozen claims
C1 to C10 about this code.
-/

deriving instance DecidableEq for Except

namespace EmergencyRestore

/-- Single-quote character (code point 39), used where the scripts embed
quoted literals into SQL text. -/
def squoteChar : Char := Char.ofNat 39

/-- Single-quote character as a string. -/
def squote : String := String.singleton squoteChar

/-- ASCII lower-casing of one character, the effect of JS toLowerCase on
the catalog type names this code lower-cases. -/
def charToLower (c : Char) : Char :=
  if 65 ≤ c.toNat ∧ c.toNat ≤ 90 then Char.ofNat (c.toNat + 32) else c

/-- ASCII lower-casing of a string (JS String.prototype.toLowerCase). -/
def stringToLower (s : String) : String := ⟨s.data.map charToLower⟩

/-- Whether the character list starts with the given pattern. -/
def startsWithList : List Char → List Char → Bool
  | _, [] => true
  | [], _ :: _ => false
  | c :: s, p :: ps => c == p && startsWithList s ps

/-- Whether the pattern occurs in the character list. -/
def hasSubList (pat : List Char) : List Char → Bool
  | [] => startsWithList [] pat
  | c :: rest => startsWithList (c :: rest) pat || hasSubList pat rest

/-- Wrap a string in single quotes, as the template literals of the
scripts do. -/
def quoteStr (s : String) : String := squote ++ s ++ squote

/-- JS template interpolation of a possibly-null numeric catalog field:
null prints as the word null, numbers print in decimal. -/
def showOptInt : Option Int → String
  | none => "null"
  | some n => toString n

/-- JS String.prototype.includes: true iff the search string occurs in
the receiver. -/
def jsIncludes (s sub : String) : Bool := hasSubList sub.data s.data

/-- One row of INFORMATION_SCHEMA.COLUMNS as read by getTableSchema
(src/database.js, part_000): column name, declared type name, nullability
flag (the string YES or NO), character maximum length (null when not
applicable, -1 denoting MAX) and numeric precision and scale. -/
structure ColumnDescriptor where
  COLUMN_NAME : String
  DATA_TYPE : String
  IS_NULLABLE : String
  CHARACTER_MAXIMUM_LENGTH : Option Int
  NUMERIC_PRECISION : Option Int
  NUMERIC_SCALE : Option Int
deriving DecidableEq, Repr

/-- Projection of a ColumnDescriptor to the four fields the Structural
Verifier compares: name, data type, nullability, character length. -/
def projCD (c : ColumnDescriptor) : String × String × String × Option Int :=
  (c.COLUMN_NAME, c.DATA_TYPE, c.IS_NULLABLE, c.CHARACTER_MAXIMUM_LENGTH)

/-- Difference message for a column count mismatch
(src/unnamed/part_006 line 22). -/
def countMismatchMsg (a b : Nat) : String :=
  "Column count mismatch: source " ++ toString a ++ ", target " ++ toString b

/-- Difference message for a column missing in the target
(src/unnamed/part_006 line 32). -/
def missingColumnMsg (n : String) : String := "Missing column in target: " ++ n

/-- Difference message for a data type mismatch (part_006 line 37). -/
def typeMismatchMsg (n st tt : String) : String :=
  "Column " ++ n ++ " type mismatch: source " ++ st ++ ", target " ++ tt

/-- Difference message for a nullability mismatch (part_006 line 41). -/
def nullableMismatchMsg (n st tt : String) : String :=
  "Column " ++ n ++ " nullable mismatch: source " ++ st ++ ", target " ++ tt

/-- Difference message for a character length mismatch (part_006 line 45). -/
def lengthMismatchMsg (n : String) (sl tl : Option Int) : String :=
  "Column " ++ n ++ " length mismatch: source " ++ showOptInt sl ++
    ", target " ++ showOptInt tl

/-- Difference message for an extra target column (part_006 line 51). -/
def extraColumnMsg (n : String) : String := "Extra column in target: " ++ n

/-- JS Map.prototype.set on an association list: overwrite in place when
the key is present, append otherwise. -/
def jsMapSet (m : List (String × ColumnDescriptor)) (k : String)
    (v : ColumnDescriptor) : List (String × ColumnDescriptor) :=
  if m.any (fun p => p.fst == k) then
    m.map (fun p => if p.fst == k then (k, v) else p)
  else m ++ [(k, v)]

/-- JS new Map(entries): fold Map.set over the entry list. -/
def jsMapOfList (l : List (String × ColumnDescriptor)) :
    List (String × ColumnDescriptor) :=
  l.foldl (fun m p => jsMapSet m p.fst p.snd) []

/-- JS Map.prototype.get. -/
def jsMapGet (m : List (String × ColumnDescriptor)) (k : String) :
    Option ColumnDescriptor :=
  (m.find? (fun p => p.fst == k)).map Prod.snd

/-- JS Map.prototype.has. -/
def jsMapHas (m : List (String × ColumnDescriptor)) (k : String) : Bool :=
  m.any (fun p => p.fst == k)

/-- Per-column comparison step of compareTableStructure
(src/unnamed/part_006 lines 28 to 47): a source column absent from the
target reports a missing-column difference, otherwise the data type,
nullability and character length fields are each compared. -/
def columnDiffs (colName : String) (sourceCol : ColumnDescriptor) :
    Option ColumnDescriptor → List String
  | none => [missingColumnMsg colName]
  | some targetCol =>
    (if sourceCol.DATA_TYPE ≠ targetCol.DATA_TYPE then
      [typeMismatchMsg colName sourceCol.DATA_TYPE targetCol.DATA_TYPE]
     else []) ++
    (if sourceCol.IS_NULLABLE ≠ targetCol.IS_NULLABLE then
      [nullableMismatchMsg colName sourceCol.IS_NULLABLE targetCol.IS_NULLABLE]
     else []) ++
    (if sourceCol.CHARACTER_MAXIMUM_LENGTH ≠ targetCol.CHARACTER_MAXIMUM_LENGTH then
      [lengthMismatchMsg colName sourceCol.CHARACTER_MAXIMUM_LENGTH
        targetCol.CHARACTER_MAXIMUM_LENGTH]
     else []) ++ []

/-- The Structural Verifier compareTableStructure
(src/unnamed/part_006 lines 15 to 56), applied to the two schemas its
catalog queries return: a coarse column-count difference first, then a
pass over the source-side name-to-descriptor map comparing each column
against the target map, then extra target columns. -/
def compareTableStructure (sourceSchema targetSchema : List ColumnDescriptor) :
    List String :=
  let countDiffs : List String :=
    if sourceSchema.length ≠ targetSchema.length then
      [countMismatchMsg sourceSchema.length targetSchema.length]
    else []
  let sourceColumns :=
    jsMapOfList (sourceSchema.map (fun col => (col.COLUMN_NAME, col)))
  let targetColumns :=
    jsMapOfList (targetSchema.map (fun col => (col.COLUMN_NAME, col)))
  let afterSourceLoop := sourceColumns.foldl
    (fun acc p => acc ++ columnDiffs p.fst p.snd (jsMapGet targetColumns p.fst))
    countDiffs
  targetColumns.foldl
    (fun acc p =>
      acc ++ (if jsMapHas sourceColumns p.fst then [] else [extraColumnMsg p.fst]))
    afterSourceLoop

/-- The single row returned by the CHECKSUM_AGG aggregate query of
calculateTableChecksum: a row count, and a checksum that is NULL on an
empty table. -/
structure ChecksumRow where
  rowCount : Nat
  checksum : Option Int
deriving DecidableEq, Repr

/-- The canonical-string expression calculateTableChecksum builds per
column (src/unnamed/part_006 lines 75 to 80): temporal columns convert
through style 121 to a fixed-width string, others cast to NVARCHAR(MAX),
NULL mapping to the literal NULL either way. -/
def checksumColumnExpr (col : ColumnDescriptor) : String :=
  if ["datetime", "datetime2", "smalldatetime"].contains (stringToLower col.DATA_TYPE) then
    "ISNULL(CONVERT(varchar(23), [" ++ col.COLUMN_NAME ++ "], 121), " ++
      quoteStr "NULL" ++ ")"
  else
    "ISNULL(CAST([" ++ col.COLUMN_NAME ++ "] AS NVARCHAR(MAX)), " ++
      quoteStr "NULL" ++ ")"

/-- calculateTableChecksum (src/unnamed/part_006 lines 72 to 99).  The
volatile timestamp and rowversion columns are filtered out, the remaining
columns are joined into one concatenation expression; when that column
list is empty the function returns checksum 0 and row count 0 without
issuing the aggregate query, otherwise the query outcome (a field of the
environment) is returned, a NULL aggregate coerced to 0 by the JS
or-with-zero. -/
def calculateTableChecksum (schema : List ColumnDescriptor)
    (queryRow : Except String ChecksumRow) : Except String (Int × Nat) :=
  let columnList := String.intercalate (" + " ++ quoteStr "|" ++ " + ")
    ((schema.filter (fun col =>
        !((stringToLower col.DATA_TYPE) == "timestamp" ||
          (stringToLower col.DATA_TYPE) == "rowversion"))).map checksumColumnExpr)
  if columnList = "" then .ok (0, 0)
  else queryRow.map (fun r => (r.checksum.getD 0, r.rowCount))

/-- Issue classification of the Data Verifier. -/
inductive IssueType where
  | STRUCTURE
  | ROW_COUNT
  | DATA_CHECKSUM
  | ERROR
deriving DecidableEq, Repr, BEq

/-- One issue of a VerificationResult: a type tag and a message. -/
structure Issue where
  type : IssueType
  message : String
deriving DecidableEq, Repr

/-- Status of a VerificationResult. -/
inductive VStatus where
  | MATCH
  | MISMATCH
  | ERROR
deriving DecidableEq, Repr

/-- The per-table result verifyTableData returns. -/
structure VerificationResult where
  table : String
  status : VStatus
  rowCount : Nat
  issues : List Issue
deriving DecidableEq, Repr

/-- Result object of compareTableRowCounts (part_006 lines 58 to 70). -/
structure RowCountCmp where
  sourceCount : Nat
  targetCount : Nat
  countsMatch : Bool
deriving DecidableEq, Repr

/-- Environment of one verifyTableData run: the outcome of every query
the verifier issues against the two pools.  Source and target schema
reads are deterministic within a run (the code rereads the source schema
before the checksum step and gets the same catalog answer). -/
structure VerifyEnv where
  sourceSchema : Except String (List ColumnDescriptor)
  targetSchema : Except String (List ColumnDescriptor)
  sourceCount : Except String Nat
  targetCount : Except String Nat
  sourceChecksumRow : Except String ChecksumRow
  targetChecksumRow : Except String ChecksumRow

/-- compareTableStructure including its two schema reads
(part_006 lines 15 to 17). -/
def compareTableStructureE (env : VerifyEnv) : Except String (List String) := do
  let sourceSchema ← env.sourceSchema
  let targetSchema ← env.targetSchema
  pure (compareTableStructure sourceSchema targetSchema)

/-- compareTableRowCounts (part_006 lines 58 to 70). -/
def compareTableRowCountsE (env : VerifyEnv) : Except String RowCountCmp := do
  let sourceCount ← env.sourceCount
  let targetCount ← env.targetCount
  pure { sourceCount := sourceCount, targetCount := targetCount,
         countsMatch := sourceCount == targetCount }

/-- Message of a ROW_COUNT issue (part_006 line 116). -/
def rowCountMsg (a b : Nat) : String :=
  "Row count mismatch: source " ++ toString a ++ ", target " ++ toString b

/-- Message of a DATA_CHECKSUM issue (part_006 line 129). -/
def checksumMsg (a b : Int) : String :=
  "Data checksum mismatch: source " ++ toString a ++ ", target " ++ toString b

/-- Body of the try block of verifyTableData (part_006 lines 106 to 139):
structural differences become STRUCTURE issues, a row count mismatch adds
a ROW_COUNT issue, and only when the source row count is positive and
there is no structural difference are the two checksums computed (over
the source schema on both sides) and compared.  The value is the source
row count together with the accumulated issue list; a thrown error is the
error branch. -/
def verifyTableDataE (env : VerifyEnv) : Except String (Nat × List Issue) := do
  let structureDiffs ← compareTableStructureE env
  let issuesAfterStructure :=
    structureDiffs.map (fun diff => Issue.mk IssueType.STRUCTURE diff)
  let rcc ← compareTableRowCountsE env
  let issuesAfterRowCount := issuesAfterStructure ++
    (if rcc.countsMatch then []
     else [Issue.mk IssueType.ROW_COUNT (rowCountMsg rcc.sourceCount rcc.targetCount)])
  if 0 < rcc.sourceCount ∧ structureDiffs.length = 0 then do
    let sourceSchema ← env.sourceSchema
    let sourceChecksum ← calculateTableChecksum sourceSchema env.sourceChecksumRow
    let targetChecksum ← calculateTableChecksum sourceSchema env.targetChecksumRow
    pure (rcc.sourceCount, issuesAfterRowCount ++
      (if sourceChecksum.fst ≠ targetChecksum.fst then
        [Issue.mk IssueType.DATA_CHECKSUM
          (checksumMsg sourceChecksum.fst targetChecksum.fst)]
       else []))
  else
    pure (rcc.sourceCount, issuesAfterRowCount)

/-- verifyTableData (src/unnamed/part_006 lines 101 to 149): the try
block above wrapped in the catch that turns any thrown error into a
single ERROR issue with status ERROR and row count 0; otherwise status is
MATCH exactly when the issue list stayed empty. -/
def verifyTableData (table : String) (env : VerifyEnv) : VerificationResult :=
  match verifyTableDataE env with
  | .ok (rowCount, issues) =>
    { table := table,
      status := if issues.isEmpty then VStatus.MATCH else VStatus.MISMATCH,
      rowCount := rowCount,
      issues := issues }
  | .error msg =>
    { table := table, status := VStatus.ERROR, rowCount := 0,
      issues := [Issue.mk IssueType.ERROR msg] }

/-- Loop body of executeWithRetry (src/unnamed/part_003 lines 10 to 23),
driven by a fuel argument counting the attempts still allowed: fuel
corresponds to maxRetries - attempt + 1, so fuel 0 means the JS for-loop
condition already failed (the function then falls through and resolves to
undefined, the none case).  Each failed non-final attempt records the
delay waited and doubles it. -/
def executeWithRetryGo {ε α : Type} (op : Nat → Except ε α) :
    Nat → Nat → Nat → Option (Except ε α) × List Nat
  | 0, _, _ => (none, [])
  | fuel + 1, attempt, delay =>
    match op attempt with
    | .ok v => (some (.ok v), [])
    | .error e =>
      if fuel = 0 then (some (.error e), [])
      else
        let r := executeWithRetryGo op fuel (attempt + 1) (delay * 2)
        (r.fst, delay :: r.snd)

/-- executeWithRetry (src/unnamed/part_003 lines 10 to 23): attempts run
from 1 to maxRetries; the operation outcome at each attempt is given by
op.  The result pairs the final outcome (none when maxRetries is 0, so
the loop never ran) with the list of backoff delays actually waited. -/
def executeWithRetry {ε α : Type} (op : Nat → Except ε α)
    (maxRetries : Nat := 3) (delay : Nat := 1000) :
    Option (Except ε α) × List Nat :=
  executeWithRetryGo op maxRetries 1 delay

/-- Components of a JS Date value as exposed by toISOString (UTC). -/
structure JsDate where
  year : Nat
  month : Nat
  day : Nat
  hour : Nat
  minute : Nat
  second : Nat
deriving DecidableEq, Repr

/-- Two-digit zero padding of a date component. -/
def pad2 (n : Nat) : String := if n < 10 then "0" ++ toString n else toString n

/-- Four-digit zero padding of a year. -/
def pad4 (n : Nat) : String :=
  if n < 10 then "000" ++ toString n
  else if n < 100 then "00" ++ toString n
  else if n < 1000 then "0" ++ toString n
  else toString n

/-- value.toISOString().slice(0, 19).replace(T, space): the
YYYY-MM-DD HH:MM:SS rendering used for temporal values
(src/unnamed/part_002 lines 161 and 168). -/
def jsDateFormat (d : JsDate) : String :=
  pad4 d.year ++ "-" ++ pad2 d.month ++ "-" ++ pad2 d.day ++ " " ++
    pad2 d.hour ++ ":" ++ pad2 d.minute ++ ":" ++ pad2 d.second

/-- A JS row value as discriminated by the coercion code of
transferBatchIndividually: null, undefined, a Date object, a string, a
boolean, a Buffer (list of byte values), or any other value (numbers and
the like), carried opaquely. -/
inductive JsValue where
  | nullV
  | undefinedV
  | dateV (d : JsDate)
  | strV (s : String)
  | boolV (b : Bool)
  | bufV (bytes : List Nat)
  | numV (n : Int)
deriving DecidableEq, Repr

/-- What the per-value coercion hands to the INSERT statement: either a
finished SQL literal string, or the original value passed through as-is. -/
inductive SqlValue where
  | lit (s : String)
  | raw (v : JsValue)
deriving DecidableEq, Repr

/-- Hexadecimal digit characters. -/
def hexDigits : List Char := "0123456789abcdef".toList

/-- Buffer.prototype.toString(hex): two lowercase hex digits per byte. -/
def bytesToHex (bytes : List Nat) : String :=
  bytes.foldl (fun acc b =>
    acc ++ String.singleton (hexDigits.getD (b / 16 % 16) (Char.ofNat 48)) ++
      String.singleton (hexDigits.getD (b % 16) (Char.ofNat 48))) ""

/-- Quote-doubling escape applied to string values
(src/unnamed/part_002 line 177): every single-quote character is
replaced by two of them. -/
def escapeQuotes (s : String) : String :=
  ⟨s.data.foldr
    (fun c acc => if c == squoteChar then squoteChar :: squoteChar :: acc else c :: acc)
    []⟩

/-- Whether the schema column found for a key is of a temporal type
(src/unnamed/part_002 line 159). -/
def isTemporalColumn : Option ColumnDescriptor → Bool
  | none => false
  | some col =>
    ["datetime", "datetime2", "smalldatetime"].contains (stringToLower col.DATA_TYPE)

/-- The per-value coercion of transferBatchIndividually
(src/unnamed/part_002 lines 152 to 189).  parseDate stands for the host
new Date(string) parser, returning none when the parse yields an invalid
date.  Order of the checks follows the JS exactly: null and undefined
first; then, when the column named key has a temporal type, Date and
string values format to YYYY-MM-DD HH:MM:SS and everything else in such a
column becomes NULL; otherwise strings are quote-escaped and quoted,
booleans become 1 or 0, Buffers become 0x-prefixed hex, and any other
value is passed through as-is. -/
def coerceRowValue (parseDate : String → Option JsDate)
    (schema : List ColumnDescriptor) (key : String) (value : JsValue) :
    SqlValue :=
  match value with
  | .nullV => .lit "NULL"
  | .undefinedV => .lit "NULL"
  | value =>
    let column := schema.find? (fun c => c.COLUMN_NAME == key)
    if isTemporalColumn column then
      match value with
      | .dateV d => .lit (quoteStr (jsDateFormat d))
      | .strV s =>
        match parseDate s with
        | none => .lit "NULL"
        | some d => .lit (quoteStr (jsDateFormat d))
      | _ => .lit "NULL"
    else
      match value with
      | .strV s => .lit (quoteStr (escapeQuotes s))
      | .boolV b => .lit (if b then "1" else "0")
      | .bufV bytes => .lit ("0x" ++ bytesToHex bytes)
      | v => .raw v

/-- Whether an Except value is a success. -/
def exceptIsOk {ε α : Type} : Except ε α → Bool
  | .ok _ => true
  | .error _ => false

/-- Row loop of transferBatchIndividually
(src/unnamed/part_002 lines 147 to 204): each row of the fetched batch is
inserted on its own, the insert outcome given by rowInsert; a failure is
caught and logged, never rethrown, and only successes bump the counter.
Returns the number of rows inserted successfully. -/
def transferBatchIndividually {ρ : Type} (rows : List ρ)
    (rowInsert : ρ → Except String Unit) : Nat :=
  rows.foldl
    (fun successCount row =>
      match rowInsert row with
      | .ok _ => successCount + 1
      | .error _ => successCount)
    0

/-- Observable per-window events of the two paging loops. -/
inductive TransferEvent where
  | clearTarget
  | bulkOk (offset rows : Nat)
  | bulkFail (offset : Nat) (msg : String)
  | fallbackRun (offset successCount : Nat)
deriving DecidableEq, Repr

/-- Environment of one transferTableData run: total row count from the
initial aggregate query, the recordset size each offset window fetch
returns, and the outcome of the retried bulk insert of each window. -/
structure TransferEnv where
  totalRows : Nat
  fetchCount : Nat → Nat
  bulkOutcome : Nat → Except String Unit

/-- Result object of transferTableData plus its event trace. -/
structure TransferOutcome where
  transferred : Nat
  total : Nat
  trace : List TransferEvent
deriving DecidableEq, Repr

/-- Paging loop of transferTableData (src/unnamed/part_002 lines
341 to 376), fuel-driven.  BATCH_SIZE is 10000.  A window with rows is
bulk-loaded through the retry wrapper; on success the counter advances
and the offset moves to the next window, but on bulk failure the JS
breaks out of the while loop: the current count and trace are returned
and no further window is fetched.  No fallback is ever invoked here. -/
def transferTableDataGo (env : TransferEnv) :
    Nat → Nat → Nat → List TransferEvent → Nat × List TransferEvent
  | 0, _, insertedCount, trace => (insertedCount, trace)
  | fuel + 1, offset, insertedCount, trace =>
    if offset < env.totalRows then
      let n := env.fetchCount offset
      if 0 < n then
        match env.bulkOutcome offset with
        | .ok _ =>
          transferTableDataGo env fuel (offset + 10000) (insertedCount + n)
            (trace ++ [TransferEvent.bulkOk offset n])
        | .error msg => (insertedCount, trace ++ [TransferEvent.bulkFail offset msg])
      else
        transferTableDataGo env fuel (offset + 10000) insertedCount trace
    else (insertedCount, trace)

/-- transferTableData (src/unnamed/part_002 lines 324 to 387): an empty
table returns transferred 0 immediately; otherwise the paging loop runs
(the fuel bound totalRows / 10000 + 2 exceeds the number of loop
iterations, so it never runs out). -/
def transferTableData (env : TransferEnv) : TransferOutcome :=
  if env.totalRows = 0 then { transferred := 0, total := 0, trace := [] }
  else
    let r := transferTableDataGo env (env.totalRows / 10000 + 2) 0 0 []
    { transferred := r.fst, total := env.totalRows, trace := r.snd }

/-- The error-message test of the catch block of retransferTableData
(src/unnamed/part_002 line 116): only these substrings route a failed
window to the row-level fallback. -/
def isDataTypeError (msg : String) : Bool :=
  jsIncludes msg "OLE DB" || jsIncludes msg "invalid data" ||
    jsIncludes msg "Invalid column type"

/-- Environment of one retransferTableData run: total row count, the
outcome (recordset size) of the retried window fetch, the outcome of the
retried bulk insert, the rows the fallback re-fetches for a window, and
the outcome of each individual row INSERT inside the fallback. -/
structure RetransferEnv (ρ : Type) where
  totalRows : Nat
  fetchOutcome : Nat → Except String Nat
  bulkOutcome : Nat → Except String Unit
  fallbackFetch : Nat → List ρ
  rowInsert : ρ → Except String Unit

/-- Paging loop of retransferTableData (src/unnamed/part_002 lines
85 to 126), fuel-driven; BATCH_SIZE is 5000.  An error thrown by the
retried fetch or bulk insert reaches the catch block: when its message
matches isDataTypeError, transferBatchIndividually runs for that window
only, its success count is added, and paging continues at the next
offset; any other error is rethrown and aborts the retransfer of this
table. -/
def retransferTableDataGo {ρ : Type} (env : RetransferEnv ρ) :
    Nat → Nat → Nat → List TransferEvent →
      Except String (Nat × List TransferEvent)
  | 0, _, insertedCount, trace => .ok (insertedCount, trace)
  | fuel + 1, offset, insertedCount, trace =>
    if offset < env.totalRows then
      match env.fetchOutcome offset with
      | .error msg =>
        if isDataTypeError msg then
          let successCount :=
            transferBatchIndividually (env.fallbackFetch offset) env.rowInsert
          retransferTableDataGo env fuel (offset + 5000)
            (insertedCount + successCount)
            (trace ++ [TransferEvent.fallbackRun offset successCount])
        else .error msg
      | .ok n =>
        if 0 < n then
          match env.bulkOutcome offset with
          | .error msg =>
            if isDataTypeError msg then
              let successCount :=
                transferBatchIndividually (env.fallbackFetch offset) env.rowInsert
              retransferTableDataGo env fuel (offset + 5000)
                (insertedCount + successCount)
                (trace ++ [TransferEvent.fallbackRun offset successCount])
            else .error msg
          | .ok _ =>
            retransferTableDataGo env fuel (offset + 5000) (insertedCount + n)
              (trace ++ [TransferEvent.bulkOk offset n])
        else
          retransferTableDataGo env fuel (offset + 5000) insertedCount trace
    else .ok (insertedCount, trace)

/-- retransferTableData (src/unnamed/part_002 lines 62 to 135): the
target table is cleared first (the clearTarget event), an empty source
returns at once, otherwise the paging loop runs with ample fuel. -/
def retransferTableData {ρ : Type} (env : RetransferEnv ρ) :
    Except String (Nat × List TransferEvent) :=
  if env.totalRows = 0 then .ok (0, [TransferEvent.clearTarget])
  else
    retransferTableDataGo env (env.totalRows / 5000 + 2) 0 0
      [TransferEvent.clearTarget]

/-- Whether an issue is a STRUCTURE issue
(src/unnamed/part_002 line 241). -/
def isStructureIssue (issue : Issue) : Bool := issue.type == IssueType.STRUCTURE

/-- Whether an issue is a data issue, ROW_COUNT or DATA_CHECKSUM
(src/unnamed/part_002 lines 242 to 244). -/
def isDataIssue (issue : Issue) : Bool :=
  issue.type == IssueType.ROW_COUNT || issue.type == IssueType.DATA_CHECKSUM

/-- The two remedial operations the fix loop can run on one table. -/
inductive FixAction where
  | fixStructure (table : String)
  | retransferData (table : String)
deriving DecidableEq, Repr

/-- Per-table branch of the fix loop of fixDatabaseIssues
(src/unnamed/part_002 lines 241 to 253): fixTableStructure runs when some
STRUCTURE issue is present, retransferTableData runs when some ROW_COUNT
or DATA_CHECKSUM issue is present, in that order. -/
def fixTableActions (table : String) (issues : List Issue) : List FixAction :=
  let hasStructureIssues := issues.any isStructureIssue
  let hasDataIssues := issues.any isDataIssue
  (if hasStructureIssues then [FixAction.fixStructure table] else []) ++
    (if hasDataIssues then [FixAction.retransferData table] else [])

/-- Column definition fragment of generateCreateTableSQL
(src/unnamed/part_002 lines 35 to 56), reproducing the JS truthiness
tests on the optional catalog numbers. -/
def generateColumnDef (col : ColumnDescriptor) : String :=
  let base := "[" ++ col.COLUMN_NAME ++ "] " ++ col.DATA_TYPE
  let withType :=
    match col.CHARACTER_MAXIMUM_LENGTH with
    | some n =>
      if 0 < n then base ++ "(" ++ toString n ++ ")"
      else generateColumnDefTypeSuffix col base
    | none => generateColumnDefTypeSuffix col base
  if col.IS_NULLABLE == "NO" then withType ++ " NOT NULL" else withType
where
  /-- The decimal/numeric and varchar/nvarchar else-if chain. -/
  generateColumnDefTypeSuffix (col : ColumnDescriptor) (base : String) : String :=
    if col.DATA_TYPE == "decimal" || col.DATA_TYPE == "numeric" then
      match col.NUMERIC_PRECISION, col.NUMERIC_SCALE with
      | some p, some s =>
        if p ≠ 0 then base ++ "(" ++ toString p ++ "," ++ toString s ++ ")"
        else base
      | _, _ => base
    else if col.DATA_TYPE == "varchar" || col.DATA_TYPE == "nvarchar" then
      match col.CHARACTER_MAXIMUM_LENGTH with
      | some n =>
        if n == -1 then base ++ "(MAX)"
        else if n == 0 then base ++ "(255)"
        else base
      | none => base ++ "(255)"
    else base

/-- generateCreateTableSQL (src/unnamed/part_002 lines 34 to 60). -/
def generateCreateTableSQL (tableName : String)
    (schema : List ColumnDescriptor) : String :=
  "CREATE TABLE [" ++ tableName ++ "] (\n    " ++
    String.intercalate ",\n    " (schema.map generateColumnDef) ++ "\n)"

/-- Statement trace of fixTableStructure (src/unnamed/part_002 lines
7 to 32): drop a stale side table, back the existing target data up into
it, drop the target table, and recreate it from the SOURCE schema. -/
def fixTableStructureTrace (tableName : String)
    (sourceSchema : List ColumnDescriptor) : List String :=
  [ "DROP TABLE IF EXISTS [" ++ tableName ++ "_backup]",
    "SELECT * INTO [" ++ tableName ++ "_backup] FROM [" ++ tableName ++ "]",
    "DROP TABLE [" ++ tableName ++ "]",
    generateCreateTableSQL tableName sourceSchema ]

/-! ### Helper lemmas -/

/-- One backoff step folds into the doubled-delay list. -/
lemma delayListStep (delay k : Nat) :
    delay :: (List.range k).map (fun i => delay * 2 * 2 ^ i) =
      (List.range (k + 1)).map (fun i => delay * 2 ^ i) := by
  rw [List.range_succ_eq_map, List.map_cons, List.map_map]
  congr 1
  · simp
  · congr 1
    funext i
    simp [Function.comp, pow_succ]
    ring

/-- The retry loop succeeds at the first successful attempt, after one
recorded doubled delay per preceding failure. -/
lemma retryGo_success {ε α : Type} (op : Nat → Except ε α) (v : α) :
    ∀ (k fuel attempt delay : Nat), k < fuel →
      (∀ i, i < k → ∃ e, op (attempt + i) = Except.error e) →
      op (attempt + k) = Except.ok v →
      executeWithRetryGo op fuel attempt delay =
        (some (Except.ok v), (List.range k).map (fun i => delay * 2 ^ i)) := by
  intro k
  induction k with
  | zero =>
    intro fuel attempt delay hk _ hok
    obtain ⟨f, rfl⟩ : ∃ f, fuel = f + 1 := ⟨fuel - 1, by omega⟩
    rw [Nat.add_zero] at hok
    simp [executeWithRetryGo, hok]
  | succ k ih =>
    intro fuel attempt delay hk herr hok
    obtain ⟨f, rfl⟩ : ∃ f, fuel = f + 1 := ⟨fuel - 1, by omega⟩
    obtain ⟨e, he⟩ := herr 0 (by omega)
    rw [Nat.add_zero] at he
    have hf : ¬ f = 0 := by omega
    have ihr := ih f (attempt + 1) (delay * 2) (by omega)
      (fun i hi => by
        have h2 := herr (i + 1) (by omega)
        rwa [show attempt + (i + 1) = attempt + 1 + i by omega] at h2)
      (by rwa [show attempt + 1 + k = attempt + (k + 1) by omega])
    simp only [executeWithRetryGo, he, if_neg hf, ihr]
    rw [delayListStep]

/-- One failing non-final step of the retry loop, stated with the
recursive call abstracted so rewriting cannot re-unfold it. -/
lemma retryGo_step_error {ε α : Type} (op : Nat → Except ε α)
    (fuel attempt delay : Nat) (e : ε) (r : Option (Except ε α))
    (ds : List Nat) (he : op attempt = Except.error e) (hf : ¬ fuel = 0)
    (hr : executeWithRetryGo op fuel (attempt + 1) (delay * 2) = (r, ds)) :
    executeWithRetryGo op (fuel + 1) attempt delay = (r, delay :: ds) := by
  simp only [executeWithRetryGo, he, if_neg hf, hr]

/-- The retry loop exhausts its attempts when every attempt fails and
rethrows the last error. -/
lemma retryGo_allfail {ε α : Type} (op : Nat → Except ε α) (err : Nat → ε) :
    ∀ (fuel : Nat), 1 ≤ fuel → ∀ (attempt delay : Nat),
      (∀ i, i < fuel → op (attempt + i) = Except.error (err (attempt + i))) →
      executeWithRetryGo op fuel attempt delay =
        (some (Except.error (err (attempt + fuel - 1))),
         (List.range (fuel - 1)).map (fun i => delay * 2 ^ i)) := by
  intro fuel
  induction fuel with
  | zero => intro h; omega
  | succ f ih =>
    intro _ attempt delay herr
    have he := herr 0 (by omega)
    rw [Nat.add_zero] at he
    match f, ih with
    | 0, _ =>
      simp [executeWithRetryGo, he]
    | g + 1, ih =>
      have ihr := ih (by omega) (attempt + 1) (delay * 2)
        (fun i hi => by
          have h2 := herr (i + 1) (by omega)
          rwa [show attempt + (i + 1) = attempt + 1 + i by omega] at h2)
      rw [retryGo_step_error op (g + 1) attempt delay (err attempt) _ _ he
        (by omega) ihr]
      rw [show attempt + 1 + (g + 1) - 1 = attempt + (g + 1 + 1) - 1 by omega]
      rw [Nat.add_sub_cancel, Nat.add_sub_cancel, delayListStep]

/-- The retry loop consults the operation only on the attempts the fuel
allows. -/
lemma retryGo_congr {ε α : Type} (op op2 : Nat → Except ε α) :
    ∀ (fuel attempt delay : Nat),
      (∀ i, attempt ≤ i → i < attempt + fuel → op i = op2 i) →
      executeWithRetryGo op fuel attempt delay =
        executeWithRetryGo op2 fuel attempt delay := by
  intro fuel
  induction fuel with
  | zero => intro attempt delay _; rfl
  | succ f ih =>
    intro attempt delay hag
    have h0 : op attempt = op2 attempt := hag attempt (Nat.le_refl _) (by omega)
    have ihr := ih (attempt + 1) (delay * 2)
      (fun i h1 h2 => hag i (by omega) (by omega))
    simp only [executeWithRetryGo, h0, ihr]

/-- The fallback row loop counts exactly the successful inserts, from any
starting count. -/
lemma transferBatch_count {ρ : Type} (rowInsert : ρ → Except String Unit) :
    ∀ (rows : List ρ) (n : Nat),
      rows.foldl
        (fun successCount row =>
          match rowInsert row with
          | .ok _ => successCount + 1
          | .error _ => successCount) n =
      n + (rows.filter (fun r => exceptIsOk (rowInsert r))).length := by
  intro rows
  induction rows with
  | nil => intro n; simp
  | cons r rest ih =>
    intro n
    cases hr : rowInsert r with
    | ok u =>
      rw [List.foldl_cons]
      simp only [hr]
      rw [ih (n + 1), List.filter_cons_of_pos (by simp [exceptIsOk, hr])]
      simp only [List.length_cons]
      omega
    | error e =>
      rw [List.foldl_cons]
      simp only [hr]
      rw [ih n, List.filter_cons_of_neg (by simp [exceptIsOk, hr])]

/-! ### Claims about the Retry Wrapper and the Row-Level Fallback -/

/-- Claim C3: an operation run through executeWithRetry that fails
exactly k < maxRetries times and then succeeds returns the success result
after exactly k delays, each double the previous one starting at the
initial delay; an operation failing maxRetries times propagates the last
error after maxRetries - 1 delays; and the wrapper never consults the
operation beyond the attempts the bound allows (in particular not after a
success). -/
theorem claim_C3_retry {ε α : Type} (op : Nat → Except ε α)
    (maxRetries delay : Nat) :
    (∀ k v, k < maxRetries →
      (∀ i, 1 ≤ i → i ≤ k → ∃ e, op i = Except.error e) →
      op (k + 1) = Except.ok v →
      executeWithRetry op maxRetries delay =
        (some (Except.ok v), (List.range k).map (fun i => delay * 2 ^ i)))
  ∧ (∀ err : Nat → ε, 1 ≤ maxRetries →
      (∀ i, 1 ≤ i → i ≤ maxRetries → op i = Except.error (err i)) →
      executeWithRetry op maxRetries delay =
        (some (Except.error (err maxRetries)),
         (List.range (maxRetries - 1)).map (fun i => delay * 2 ^ i)))
  ∧ (∀ op2 : Nat → Except ε α,
      (∀ i, 1 ≤ i → i ≤ maxRetries → op i = op2 i) →
      executeWithRetry op maxRetries delay =
        executeWithRetry op2 maxRetries delay) := by
  refine ⟨?_, ?_, ?_⟩
  · intro k v hk herr hok
    exact retryGo_success op v k maxRetries 1 delay hk
      (fun i hi => by
        have h2 := herr (i + 1) (by omega) (by omega)
        rwa [show i + 1 = 1 + i by omega] at h2)
      (by rwa [show k + 1 = 1 + k by omega] at hok)
  · intro err hmr herr
    have h := retryGo_allfail op err maxRetries hmr 1 delay
      (fun i hi => by
        have h2 := herr (i + 1) (by omega) (by omega)
        rwa [show i + 1 = 1 + i by omega] at h2)
    rwa [show 1 + maxRetries - 1 = maxRetries by omega] at h
  · intro op2 hag
    exact retryGo_congr op op2 maxRetries 1 delay
      (fun i h1 h2 => hag i h1 (by omega))

/-- A concrete operation failing once, then succeeding. -/
def retryOpA : Nat → Except String Nat :=
  fun i => if i = 1 then Except.error "transient" else Except.ok 42

/-- A concrete operation failing at every attempt. -/
def retryOpB : Nat → Except String Nat :=
  fun i => Except.error ("fail" ++ toString i)

/-- Witness for claim C3 at the default bound 3 and delay 1000: one
failure costs one 1000ms delay before the success is returned; three
failures propagate the third error after delays 1000 and 2000. -/
theorem claim_C3_witness :
    executeWithRetry retryOpA 3 1000 = (some (Except.ok 42), [1000]) ∧
    executeWithRetry retryOpB 3 1000 =
      (some (Except.error "fail3"), [1000, 2000]) := by
  constructor
  · have h := (claim_C3_retry retryOpA 3 1000).1 1 42 (by decide)
      (fun i h1 h2 => ⟨"transient", by
        have hi : i = 1 := by omega
        subst hi
        rfl⟩)
      (by decide)
    exact h.trans (by decide)
  · have h := (claim_C3_retry retryOpB 3 1000).2.1
      (fun i => "fail" ++ toString i) (by decide) (fun i _ _ => rfl)
    exact h.trans (by decide)

/-- Claim C9: the Row-Level Fallback row loop returns exactly the number
of rows whose individual insert succeeded; every row of the batch is
processed (the count is the filter over the whole batch) and the count
never exceeds the batch size.  Failures are absorbed into the count
rather than rethrown: the function is total and returns a plain number. -/
theorem claim_C9_fallback_count {ρ : Type} (rows : List ρ)
    (rowInsert : ρ → Except String Unit) :
    transferBatchIndividually rows rowInsert =
      (rows.filter (fun r => exceptIsOk (rowInsert r))).length ∧
    transferBatchIndividually rows rowInsert ≤ rows.length := by
  have h := transferBatch_count rowInsert rows 0
  have h0 : transferBatchIndividually rows rowInsert =
      (rows.filter (fun r => exceptIsOk (rowInsert r))).length := by
    simpa [transferBatchIndividually] using h
  exact ⟨h0, by rw [h0]; exact List.length_filter_le _ _⟩

/-! ### Claims about the Data Verifier -/

/-- Claim C5: a VerificationResult has status MATCH exactly when its
issue list is empty; in particular the MISMATCH and ERROR statuses always
carry at least one issue. -/
theorem claim_C5_match_iff (table : String) (env : VerifyEnv) :
    (verifyTableData table env).status = VStatus.MATCH ↔
      (verifyTableData table env).issues = [] := by
  cases h : verifyTableDataE env with
  | ok p =>
    obtain ⟨cnt, issues⟩ := p
    cases issues <;> simp [verifyTableData, h]
  | error msg => simp [verifyTableData, h]

/-- Claim C7: an error thrown anywhere inside the try block of
verifyTableData (structural comparison, row-count comparison or checksum
computation) is not propagated: the function returns a result with status
ERROR and exactly one issue of type ERROR carrying the message. -/
theorem claim_C7_error_isolated (table : String) (env : VerifyEnv)
    (msg : String) (h : verifyTableDataE env = Except.error msg) :
    verifyTableData table env =
      { table := table, status := VStatus.ERROR, rowCount := 0,
        issues := [Issue.mk IssueType.ERROR msg] } := by
  simp [verifyTableData, h]

/-- An environment whose very first catalog query throws. -/
def verifyEnvBoom : VerifyEnv :=
  ⟨Except.error "Connection lost", .ok [], .ok 0, .ok 0,
   .error "x", .error "y"⟩

/-- Witness for claim C7: a concrete failing verification run. -/
theorem claim_C7_witness :
    verifyTableData "AppTasks" verifyEnvBoom =
      { table := "AppTasks", status := VStatus.ERROR, rowCount := 0,
        issues := [Issue.mk IssueType.ERROR "Connection lost"] } :=
  claim_C7_error_isolated "AppTasks" verifyEnvBoom "Connection lost" rfl

/-- Evaluation of the verifier try block when the catalog and count
queries succeed: only the checksum branch still depends on the checksum
query outcomes. -/
lemma verifyTableDataE_ok_eval (ss ts : List ColumnDescriptor) (sc tc : Nat)
    (d1 d2 : Except String ChecksumRow) :
    verifyTableDataE ⟨.ok ss, .ok ts, .ok sc, .ok tc, d1, d2⟩ =
      (if 0 < sc ∧ (compareTableStructure ss ts).length = 0 then
        (calculateTableChecksum ss d1).bind (fun sourceChecksum =>
          (calculateTableChecksum ss d2).bind (fun targetChecksum =>
            Except.ok (sc,
              ((compareTableStructure ss ts).map
                 (fun diff => Issue.mk IssueType.STRUCTURE diff) ++
               (if (sc == tc : Bool) then []
                else [Issue.mk IssueType.ROW_COUNT (rowCountMsg sc tc)])) ++
              (if sourceChecksum.fst ≠ targetChecksum.fst then
                [Issue.mk IssueType.DATA_CHECKSUM
                  (checksumMsg sourceChecksum.fst targetChecksum.fst)]
               else []))))
      else Except.ok (sc,
        (compareTableStructure ss ts).map
          (fun diff => Issue.mk IssueType.STRUCTURE diff) ++
        (if (sc == tc : Bool) then []
         else [Issue.mk IssueType.ROW_COUNT (rowCountMsg sc tc)]))) := by
  simp only [verifyTableDataE, compareTableStructureE, compareTableRowCountsE,
    bind, Except.bind, pure, Except.pure]

/-- Claim C6: when the Structural Verifier reports differences, each one
is recorded as a STRUCTURE issue (followed only by a possible ROW_COUNT
issue) and the checksum query outcomes do not influence the result at
all; likewise nothing is computed from the checksum queries whenever the
structural difference list is nonempty or the source row count is zero. -/
theorem claim_C6_structure_skips_checksum (table : String)
    (ss ts : List ColumnDescriptor) (sc tc : Nat)
    (d1 d2 d1' d2' : Except String ChecksumRow) :
    (compareTableStructure ss ts ≠ [] →
      (verifyTableData table ⟨.ok ss, .ok ts, .ok sc, .ok tc, d1, d2⟩).issues =
        (compareTableStructure ss ts).map
          (fun diff => Issue.mk IssueType.STRUCTURE diff) ++
        (if (sc == tc : Bool) then []
         else [Issue.mk IssueType.ROW_COUNT (rowCountMsg sc tc)]))
  ∧ (¬(compareTableStructure ss ts = [] ∧ 0 < sc) →
      verifyTableData table ⟨.ok ss, .ok ts, .ok sc, .ok tc, d1, d2⟩ =
        verifyTableData table ⟨.ok ss, .ok ts, .ok sc, .ok tc, d1', d2'⟩) := by
  constructor
  · intro hdiff
    have hcond : ¬ (0 < sc ∧ compareTableStructure ss ts = []) := by
      rintro ⟨-, hl⟩
      exact hdiff hl
    simp [verifyTableData, verifyTableDataE_ok_eval, hcond]
  · intro hnc
    have hcond : ¬ (0 < sc ∧ compareTableStructure ss ts = []) := by
      rintro ⟨h1, hl⟩
      exact hnc ⟨hl, h1⟩
    simp [verifyTableData, verifyTableDataE_ok_eval, hcond]

/-- Column id int NOT NULL of the worked spec example. -/
def colId : ColumnDescriptor := ⟨"id", "int", "NO", none, some 10, some 0⟩

/-- Column name varchar(50) NULL of the worked spec example. -/
def colName50 : ColumnDescriptor := ⟨"name", "varchar", "YES", some 50, none, none⟩

/-- Witness for claim C6: one concrete run with a structural difference
records it as a STRUCTURE issue without touching the (deliberately
contradictory) checksum outcomes, and one run with source count zero is
insensitive to the checksum outcomes. -/
theorem claim_C6_witness :
    (verifyTableData "T"
        ⟨.ok [colId], .ok [], .ok 5, .ok 5,
         .ok ⟨5, some 1⟩, .ok ⟨5, some 2⟩⟩).issues =
      (compareTableStructure [colId] []).map
        (fun diff => Issue.mk IssueType.STRUCTURE diff) ++
      (if ((5 : Nat) == (5 : Nat) : Bool) then []
       else [Issue.mk IssueType.ROW_COUNT (rowCountMsg 5 5)]) ∧
    verifyTableData "T"
        ⟨.ok [colId], .ok [colId], .ok 0, .ok 0, .ok ⟨7, some 1⟩, .ok ⟨9, some 2⟩⟩ =
      verifyTableData "T"
        ⟨.ok [colId], .ok [colId], .ok 0, .ok 0, .error "a", .error "b"⟩ := by
  constructor
  · exact (claim_C6_structure_skips_checksum "T" [colId] [] 5 5
      (.ok ⟨5, some 1⟩) (.ok ⟨5, some 2⟩)
      (.ok ⟨5, some 1⟩) (.ok ⟨5, some 2⟩)).1 (by decide)
  · exact (claim_C6_structure_skips_checksum "T" [colId] [colId] 0 0
      (.ok ⟨7, some 1⟩) (.ok ⟨9, some 2⟩) (.error "a") (.error "b")).2
      (by simp)

/-- An issue drawn from a STRUCTURE-issue map followed by an optional
ROW_COUNT issue is never a DATA_CHECKSUM issue. -/
lemma structRowcountOnly (L : List String) (sc tc : Nat) (issue : Issue)
    (hmem : issue ∈ (L.map (fun diff => Issue.mk IssueType.STRUCTURE diff) ++
      (if (sc == tc : Bool) then []
       else [Issue.mk IssueType.ROW_COUNT (rowCountMsg sc tc)]))) :
    issue.type ≠ IssueType.DATA_CHECKSUM := by
  rcases List.mem_append.mp hmem with hm | hm
  · obtain ⟨d, hd, rfl⟩ := List.mem_map.mp hm
    simp
  · by_cases hc : (sc == tc : Bool)
    · rw [if_pos hc] at hm
      cases hm
    · rw [if_neg hc] at hm
      rw [List.mem_singleton] at hm
      rw [hm]
      simp

/-- Claim C10: for a schema consisting only of timestamp or rowversion
columns the checksum computation returns checksum 0 and row count 0
whatever the table query would have returned (it is never issued), and
consequently the Data Verifier never emits a DATA_CHECKSUM issue for such
a table, however the two sides' contents differ. -/
theorem claim_C10_volatile_checksum (schema : List ColumnDescriptor)
    (hvol : ∀ col ∈ schema, stringToLower col.DATA_TYPE = "timestamp" ∨
      stringToLower col.DATA_TYPE = "rowversion") :
    (∀ q, calculateTableChecksum schema q = Except.ok (0, 0))
  ∧ (∀ (table : String) (ts : List ColumnDescriptor) (sc tc : Nat)
       (d1 d2 : Except String ChecksumRow),
       ∀ issue ∈ (verifyTableData table
         ⟨.ok schema, .ok ts, .ok sc, .ok tc, d1, d2⟩).issues,
         issue.type ≠ IssueType.DATA_CHECKSUM) := by
  have hfilter : schema.filter (fun col =>
      !((stringToLower col.DATA_TYPE) == "timestamp" ||
        (stringToLower col.DATA_TYPE) == "rowversion")) = [] := by
    rw [List.filter_eq_nil_iff]
    intro col hc
    rcases hvol col hc with h | h <;> simp [h]
  have hcalc : ∀ q, calculateTableChecksum schema q = Except.ok (0, 0) := by
    intro q
    simp only [calculateTableChecksum]
    rw [hfilter]
    rfl
  refine ⟨hcalc, ?_⟩
  intro table ts sc tc d1 d2 issue hmem
  by_cases hcond : 0 < sc ∧ (compareTableStructure schema ts).length = 0
  · have heval : verifyTableDataE ⟨.ok schema, .ok ts, .ok sc, .ok tc, d1, d2⟩ =
        Except.ok (sc,
          (compareTableStructure schema ts).map
            (fun diff => Issue.mk IssueType.STRUCTURE diff) ++
          (if (sc == tc : Bool) then []
           else [Issue.mk IssueType.ROW_COUNT (rowCountMsg sc tc)])) := by
      rw [verifyTableDataE_ok_eval, if_pos hcond, hcalc d1, hcalc d2]
      simp [Except.bind]
    simp only [verifyTableData, heval] at hmem
    exact structRowcountOnly _ sc tc issue hmem
  · have heval : verifyTableDataE ⟨.ok schema, .ok ts, .ok sc, .ok tc, d1, d2⟩ =
        Except.ok (sc,
          (compareTableStructure schema ts).map
            (fun diff => Issue.mk IssueType.STRUCTURE diff) ++
          (if (sc == tc : Bool) then []
           else [Issue.mk IssueType.ROW_COUNT (rowCountMsg sc tc)])) := by
      rw [verifyTableDataE_ok_eval, if_neg hcond]
    simp only [verifyTableData, heval] at hmem
    exact structRowcountOnly _ sc tc issue hmem

/-- A schema with only an auto-maintained rowversion column. -/
def volSchema : List ColumnDescriptor :=
  [⟨"RowVer", "timestamp", "NO", none, none, none⟩]

/-- Witness for claim C10: the checksum of the volatile-only schema is
ok (0, 0) even when the query outcome is an error, and a verification
whose two checksum rows disagree yields no DATA_CHECKSUM issue. -/
theorem claim_C10_witness :
    calculateTableChecksum volSchema (Except.error "never queried") =
      Except.ok (0, 0) ∧
    (∀ issue ∈ (verifyTableData "T"
        ⟨.ok volSchema, .ok volSchema, .ok 3, .ok 3,
         .ok ⟨3, some 11⟩, .ok ⟨3, some 22⟩⟩).issues,
      issue.type ≠ IssueType.DATA_CHECKSUM) := by
  have h := claim_C10_volatile_checksum volSchema (by decide)
  exact ⟨h.1 _, fun issue hi => h.2 "T" volSchema 3 3 _ _ issue hi⟩

/-! ### Structural Verifier claims -/

/-- Folding Map.set over entries with pairwise distinct keys reproduces
the entry list. -/
lemma jsMapOfList_nodup_aux :
    ∀ (l acc : List (String × ColumnDescriptor)),
      ((acc ++ l).map Prod.fst).Nodup →
      l.foldl (fun m p => jsMapSet m p.fst p.snd) acc = acc ++ l := by
  intro l
  induction l with
  | nil => intro acc _; simp
  | cons p rest ih =>
    intro acc hnd
    have hnotin : p.fst ∉ acc.map Prod.fst := by
      rw [List.map_append] at hnd
      rcases List.nodup_append.mp hnd with ⟨-, -, hdisj⟩
      intro hin
      exact hdisj hin (by simp)
    have hany : acc.any (fun q => q.fst == p.fst) = false := by
      by_contra hcon
      rw [Bool.not_eq_false, List.any_eq_true] at hcon
      obtain ⟨q, hq, hbeq⟩ := hcon
      exact hnotin (List.mem_map.mpr ⟨q, hq, by simpa using hbeq⟩)
    have hset : jsMapSet acc p.fst p.snd = acc ++ [p] := by
      simp only [jsMapSet, hany]
      simp
    rw [List.foldl_cons, hset, ih (acc ++ [p]) (by simpa using hnd)]
    simp

/-- new Map(entries) is the identity on entry lists with distinct keys. -/
lemma jsMapOfList_eq_self (l : List (String × ColumnDescriptor))
    (h : (l.map Prod.fst).Nodup) : jsMapOfList l = l := by
  have haux := jsMapOfList_nodup_aux l [] (by simpa using h)
  simpa [jsMapOfList] using haux

/-- Looking a key up among name-keyed pairs is finding the column by
name. -/
lemma find?_pair_map (l : List ColumnDescriptor) (k : String) :
    (l.map fun c => (c.COLUMN_NAME, c)).find? (fun p => p.fst == k) =
      (l.find? (fun c => c.COLUMN_NAME == k)).map fun c => (c.COLUMN_NAME, c) := by
  induction l with
  | nil => rfl
  | cons a rest ih =>
    cases hb : (a.COLUMN_NAME == k) with
    | true => simp [List.find?, hb]
    | false => simp [List.find?, hb, ih]

/-- On a list with pairwise distinct column names, searching by the name
of a member finds exactly that member. -/
lemma find?_name_unique (l : List ColumnDescriptor)
    (hn : (l.map fun c => c.COLUMN_NAME).Nodup) (b : ColumnDescriptor)
    (hb : b ∈ l) :
    l.find? (fun c => c.COLUMN_NAME == b.COLUMN_NAME) = some b := by
  induction l with
  | nil => cases hb
  | cons a rest ih =>
    rw [List.map_cons, List.nodup_cons] at hn
    rcases List.mem_cons.mp hb with rfl | hbr
    · simp [List.find?]
    · have hanb : a.COLUMN_NAME ≠ b.COLUMN_NAME := by
        intro heq
        exact hn.1 (by rw [heq]; exact List.mem_map.mpr ⟨b, hbr, rfl⟩)
      have hbf : (a.COLUMN_NAME == b.COLUMN_NAME) = false :=
        beq_eq_false_iff_ne.mpr hanb
      simp only [List.find?, hbf]
      exact ih hn.2 hbr

/-- The source-column loop of the Structural Verifier adds nothing when
every visited column compares clean. -/
lemma foldl_columnDiffs_nil (tm : List (String × ColumnDescriptor)) :
    ∀ (l : List (String × ColumnDescriptor)) (acc : List String),
      (∀ p ∈ l, columnDiffs p.fst p.snd (jsMapGet tm p.fst) = []) →
      l.foldl (fun acc p => acc ++ columnDiffs p.fst p.snd (jsMapGet tm p.fst))
        acc = acc := by
  intro l
  induction l with
  | nil => intro acc _; rfl
  | cons p rest ih =>
    intro acc h
    rw [List.foldl_cons, h p (List.mem_cons_self p rest), List.append_nil]
    exact ih acc (fun q hq => h q (List.mem_cons_of_mem p hq))

/-- The extra-column loop of the Structural Verifier adds nothing when
every visited key is present on the source side. -/
lemma foldl_extra_nil (sm : List (String × ColumnDescriptor)) :
    ∀ (l : List (String × ColumnDescriptor)) (acc : List String),
      (∀ p ∈ l, jsMapHas sm p.fst = true) →
      l.foldl
        (fun acc p =>
          acc ++ (if jsMapHas sm p.fst then [] else [extraColumnMsg p.fst]))
        acc = acc := by
  intro l
  induction l with
  | nil => intro acc _; rfl
  | cons p rest ih =>
    intro acc h
    rw [List.foldl_cons, if_pos (h p (List.mem_cons_self p rest)),
      List.append_nil]
    exact ih acc (fun q hq => h q (List.mem_cons_of_mem p hq))

/-- The source-column loop over a split list whose outer parts compare
clean contributes exactly the middle column's differences. -/
lemma foldl_columnDiffs_split (tm : List (String × ColumnDescriptor))
    (pre suf : List ColumnDescriptor) (c : ColumnDescriptor)
    (acc : List String)
    (hpre : ∀ p ∈ pre, columnDiffs p.COLUMN_NAME p (jsMapGet tm p.COLUMN_NAME) = [])
    (hsuf : ∀ p ∈ suf, columnDiffs p.COLUMN_NAME p (jsMapGet tm p.COLUMN_NAME) = []) :
    ((pre ++ c :: suf).map fun col => (col.COLUMN_NAME, col)).foldl
      (fun acc p => acc ++ columnDiffs p.fst p.snd (jsMapGet tm p.fst)) acc =
      acc ++ columnDiffs c.COLUMN_NAME c (jsMapGet tm c.COLUMN_NAME) := by
  rw [List.map_append, List.map_cons, List.foldl_append]
  rw [foldl_columnDiffs_nil tm _ acc
    (fun p hp => by
      obtain ⟨a, ha, rfl⟩ := List.mem_map.mp hp
      exact hpre a ha)]
  rw [List.foldl_cons]
  exact foldl_columnDiffs_nil tm _ _
    (fun p hp => by
      obtain ⟨a, ha, rfl⟩ := List.mem_map.mp hp
      exact hsuf a ha)

/-- Claim C4: the Structural Verifier reports no difference between two
column lists holding the same columns (same name, data type, nullability
and character length) in any order; and on two schemas differing only in
one column's character length it reports exactly the one length-mismatch
difference for that column. -/
theorem claim_C4_structural :
    (∀ sourceSchema targetSchema : List ColumnDescriptor,
      (sourceSchema.map projCD).Perm (targetSchema.map projCD) →
      (sourceSchema.map fun c => c.COLUMN_NAME).Nodup →
      compareTableStructure sourceSchema targetSchema = [])
  ∧ (∀ (pre suf : List ColumnDescriptor) (c : ColumnDescriptor)
       (L : Option Int),
      ((pre ++ c :: suf).map fun c => c.COLUMN_NAME).Nodup →
      c.CHARACTER_MAXIMUM_LENGTH ≠ L →
      compareTableStructure (pre ++ c :: suf)
        (pre ++ { c with CHARACTER_MAXIMUM_LENGTH := L } :: suf) =
        [lengthMismatchMsg c.COLUMN_NAME c.CHARACTER_MAXIMUM_LENGTH L]) := by
  constructor
  · intro s t hperm hnodup
    have hnames : (s.map fun c => c.COLUMN_NAME).Perm
        (t.map fun c => c.COLUMN_NAME) := by
      have h2 := hperm.map Prod.fst
      rw [List.map_map, List.map_map] at h2
      exact h2
    have htnodup : (t.map fun c => c.COLUMN_NAME).Nodup :=
      hnames.nodup_iff.mp hnodup
    have hkeys_s : ((s.map fun col => (col.COLUMN_NAME, col)).map Prod.fst).Nodup := by
      rw [List.map_map]
      exact hnodup
    have hkeys_t : ((t.map fun col => (col.COLUMN_NAME, col)).map Prod.fst).Nodup := by
      rw [List.map_map]
      exact htnodup
    have hsmap := jsMapOfList_eq_self _ hkeys_s
    have htmap := jsMapOfList_eq_self _ hkeys_t
    have hlen : s.length = t.length := by
      have h3 := hperm.length_eq
      rwa [List.length_map, List.length_map] at h3
    have hdiffs : ∀ p ∈ (s.map fun col => (col.COLUMN_NAME, col)),
        columnDiffs p.fst p.snd
          (jsMapGet (t.map fun col => (col.COLUMN_NAME, col)) p.fst) = [] := by
      intro p hp
      obtain ⟨c, hc, rfl⟩ := List.mem_map.mp hp
      have hmemproj : projCD c ∈ t.map projCD :=
        hperm.subset (List.mem_map.mpr ⟨c, hc, rfl⟩)
      obtain ⟨c2, hc2, hproj⟩ := List.mem_map.mp hmemproj
      have hfields := hproj
      simp only [projCD, Prod.mk.injEq] at hfields
      obtain ⟨hn, ht2, hnul, hlen2⟩ := hfields
      have hfind : t.find? (fun x => x.COLUMN_NAME == c.COLUMN_NAME) = some c2 := by
        have h3 := find?_name_unique t htnodup c2 hc2
        rwa [hn] at h3
      simp only [jsMapGet, find?_pair_map, hfind]
      simp [columnDiffs, ht2, hnul, hlen2]
    have hextra : ∀ p ∈ (t.map fun col => (col.COLUMN_NAME, col)),
        jsMapHas (s.map fun col => (col.COLUMN_NAME, col)) p.fst = true := by
      intro p hp
      obtain ⟨c2, hc2, rfl⟩ := List.mem_map.mp hp
      have hmemn : c2.COLUMN_NAME ∈ (s.map fun c => c.COLUMN_NAME) :=
        hnames.symm.subset (List.mem_map.mpr ⟨c2, hc2, rfl⟩)
      obtain ⟨c, hc, hcn⟩ := List.mem_map.mp hmemn
      rw [jsMapHas, List.any_eq_true]
      exact ⟨(c.COLUMN_NAME, c), List.mem_map.mpr ⟨c, hc, rfl⟩, by simp [hcn]⟩
    simp only [compareTableStructure, hsmap, htmap]
    rw [if_neg (not_not_intro hlen), foldl_columnDiffs_nil _ _ _ hdiffs,
      foldl_extra_nil _ _ _ hextra]
  · intro pre suf c L hnodup hL
    have hnames_eq :
        ((pre ++ { c with CHARACTER_MAXIMUM_LENGTH := L } :: suf).map
          fun x => x.COLUMN_NAME) =
        ((pre ++ c :: suf).map fun x => x.COLUMN_NAME) := by
      simp
    have htnodup : ((pre ++ { c with CHARACTER_MAXIMUM_LENGTH := L } :: suf).map
        fun x => x.COLUMN_NAME).Nodup := by
      rw [hnames_eq]
      exact hnodup
    have hkeys_s : (((pre ++ c :: suf).map
        fun col => (col.COLUMN_NAME, col)).map Prod.fst).Nodup := by
      rw [List.map_map]
      exact hnodup
    have hkeys_t : (((pre ++ { c with CHARACTER_MAXIMUM_LENGTH := L } :: suf).map
        fun col => (col.COLUMN_NAME, col)).map Prod.fst).Nodup := by
      rw [List.map_map]
      exact htnodup
    have hsmap := jsMapOfList_eq_self _ hkeys_s
    have htmap := jsMapOfList_eq_self _ hkeys_t
    have hlen : (pre ++ c :: suf).length =
        (pre ++ { c with CHARACTER_MAXIMUM_LENGTH := L } :: suf).length := by
      simp
    have hclean : ∀ p ∈ pre ++ suf,
        columnDiffs p.COLUMN_NAME p
          (jsMapGet ((pre ++ { c with CHARACTER_MAXIMUM_LENGTH := L } :: suf).map
            fun col => (col.COLUMN_NAME, col)) p.COLUMN_NAME) = [] := by
      intro a ha
      have hat : a ∈ pre ++ { c with CHARACTER_MAXIMUM_LENGTH := L } :: suf := by
        rcases List.mem_append.mp ha with h | h
        · exact List.mem_append_left _ h
        · exact List.mem_append_right _ (List.mem_cons_of_mem _ h)
      have hfind := find?_name_unique _ htnodup a hat
      simp only [jsMapGet, find?_pair_map, hfind]
      simp [columnDiffs]
    have hmid : columnDiffs c.COLUMN_NAME c
        (jsMapGet ((pre ++ { c with CHARACTER_MAXIMUM_LENGTH := L } :: suf).map
          fun col => (col.COLUMN_NAME, col)) c.COLUMN_NAME) =
        [lengthMismatchMsg c.COLUMN_NAME c.CHARACTER_MAXIMUM_LENGTH L] := by
      have hct : { c with CHARACTER_MAXIMUM_LENGTH := L } ∈
          pre ++ { c with CHARACTER_MAXIMUM_LENGTH := L } :: suf :=
        List.mem_append_right _ (List.mem_cons_self _ _)
      have hfind := find?_name_unique _ htnodup _ hct
      simp only [jsMapGet, find?_pair_map, hfind]
      simp [columnDiffs, hL]
    have hextra : ∀ p ∈ ((pre ++ { c with CHARACTER_MAXIMUM_LENGTH := L } :: suf).map
        fun col => (col.COLUMN_NAME, col)),
        jsMapHas ((pre ++ c :: suf).map fun col => (col.COLUMN_NAME, col))
          p.fst = true := by
      intro p hp
      obtain ⟨c2, hc2, rfl⟩ := List.mem_map.mp hp
      have hmemn : c2.COLUMN_NAME ∈ ((pre ++ c :: suf).map fun x => x.COLUMN_NAME) := by
        rw [← hnames_eq]
        exact List.mem_map.mpr ⟨c2, hc2, rfl⟩
      obtain ⟨a, ha, hcn⟩ := List.mem_map.mp hmemn
      rw [jsMapHas, List.any_eq_true]
      exact ⟨(a.COLUMN_NAME, a), List.mem_map.mpr ⟨a, ha, rfl⟩, by simp [hcn]⟩
    simp only [compareTableStructure, hsmap, htmap]
    rw [if_neg (not_not_intro hlen)]
    rw [foldl_columnDiffs_split _ pre suf c []
      (fun p hp => hclean p (List.mem_append_left _ hp))
      (fun p hp => hclean p (List.mem_append_right _ hp))]
    rw [List.nil_append, hmid, foldl_extra_nil _ _ _ hextra]

/-- Column name varchar(100) NULL of the worked spec example. -/
def colName100 : ColumnDescriptor := ⟨"name", "varchar", "YES", some 100, none, none⟩

/-- Witness for claim C4: the spec's worked example, with the two columns
reordered on the target side, and with the name column widened from
varchar(50) to varchar(100). -/
theorem claim_C4_witness :
    compareTableStructure [colId, colName50] [colName50, colId] = [] ∧
    compareTableStructure [colId, colName50] [colId, colName100] =
      [lengthMismatchMsg "name" (some 50) (some 100)] := by
  constructor
  · exact claim_C4_structural.1 [colId, colName50] [colName50, colId]
      (by decide) (by decide)
  · exact claim_C4_structural.2 [colId] [] colName50 (some 100)
      (by decide) (by decide)

/-! ### Row-Level Fallback value coercion -/

/-- Claim C8: the per-value coercion of the Row-Level Fallback yields the
SQL literal NULL for null and undefined; for a temporal column a quoted
YYYY-MM-DD HH:MM:SS rendering of a Date value or of a string value that
parses, and NULL for a string value that fails to parse; for other
columns a quoted string with embedded quote characters doubled, 1 or 0
for a boolean, a 0x-prefixed hex literal for a Buffer, and any other
value passed through as-is. -/
theorem claim_C8_value_coercion (parseDate : String → Option JsDate)
    (schema : List ColumnDescriptor) (key : String) :
    (coerceRowValue parseDate schema key JsValue.nullV = SqlValue.lit "NULL" ∧
     coerceRowValue parseDate schema key JsValue.undefinedV = SqlValue.lit "NULL")
  ∧ (isTemporalColumn (schema.find? (fun c => c.COLUMN_NAME == key)) = true →
      (∀ d, coerceRowValue parseDate schema key (JsValue.dateV d) =
        SqlValue.lit (quoteStr (jsDateFormat d)))
      ∧ (∀ s, parseDate s = none →
          coerceRowValue parseDate schema key (JsValue.strV s) =
            SqlValue.lit "NULL")
      ∧ (∀ s d, parseDate s = some d →
          coerceRowValue parseDate schema key (JsValue.strV s) =
            SqlValue.lit (quoteStr (jsDateFormat d))))
  ∧ (isTemporalColumn (schema.find? (fun c => c.COLUMN_NAME == key)) = false →
      (∀ s, coerceRowValue parseDate schema key (JsValue.strV s) =
        SqlValue.lit (quoteStr (escapeQuotes s)))
      ∧ (∀ b, coerceRowValue parseDate schema key (JsValue.boolV b) =
        SqlValue.lit (if b then "1" else "0"))
      ∧ (∀ bytes, coerceRowValue parseDate schema key (JsValue.bufV bytes) =
        SqlValue.lit ("0x" ++ bytesToHex bytes))
      ∧ (∀ n, coerceRowValue parseDate schema key (JsValue.numV n) =
        SqlValue.raw (JsValue.numV n))) := by
  refine ⟨⟨rfl, rfl⟩, ?_, ?_⟩
  · intro htemp
    refine ⟨?_, ?_, ?_⟩
    · intro d
      simp [coerceRowValue, htemp]
    · intro s hp
      simp [coerceRowValue, htemp, hp]
    · intro s d hp
      simp [coerceRowValue, htemp, hp]
  · intro htemp
    refine ⟨?_, ?_, ?_, ?_⟩
    · intro s
      simp [coerceRowValue, htemp]
    · intro b
      simp [coerceRowValue, htemp]
    · intro bytes
      simp [coerceRowValue, htemp]
    · intro n
      simp [coerceRowValue, htemp]

/-- Demo schema with one temporal and one text column; the mixed-case
type name exercises the toLowerCase in the temporal test. -/
def demoSchema : List ColumnDescriptor :=
  [⟨"created", "DateTime", "YES", none, none, none⟩,
   ⟨"title", "varchar", "YES", some 50, none, none⟩]

/-- A host date parser that fails on every string. -/
def parseNone : String → Option JsDate := fun _ => none

/-- A fixed demo date. -/
def demoDate : JsDate := ⟨2024, 1, 2, 3, 4, 5⟩

/-- A host date parser that parses every string to the demo date. -/
def parseDemo : String → Option JsDate := fun _ => some demoDate

/-- Witness for claim C8: each coercion rule evaluated on the demo
schema. -/
theorem claim_C8_witness :
    coerceRowValue parseNone demoSchema "created" JsValue.nullV =
      SqlValue.lit "NULL" ∧
    coerceRowValue parseNone demoSchema "created" (JsValue.dateV demoDate) =
      SqlValue.lit (quoteStr (jsDateFormat demoDate)) ∧
    coerceRowValue parseNone demoSchema "created" (JsValue.strV "notadate") =
      SqlValue.lit "NULL" ∧
    coerceRowValue parseDemo demoSchema "created" (JsValue.strV "2024-01-02") =
      SqlValue.lit (quoteStr (jsDateFormat demoDate)) ∧
    coerceRowValue parseNone demoSchema "title" (JsValue.strV "abc") =
      SqlValue.lit (quoteStr (escapeQuotes "abc")) ∧
    coerceRowValue parseNone demoSchema "title" (JsValue.boolV true) =
      SqlValue.lit "1" ∧
    coerceRowValue parseNone demoSchema "title" (JsValue.bufV [255, 16]) =
      SqlValue.lit ("0x" ++ bytesToHex [255, 16]) ∧
    coerceRowValue parseNone demoSchema "title" (JsValue.numV 7) =
      SqlValue.raw (JsValue.numV 7) := by
  refine ⟨(claim_C8_value_coercion parseNone demoSchema "created").1.1,
    ((claim_C8_value_coercion parseNone demoSchema "created").2.1
      (by decide)).1 demoDate,
    ((claim_C8_value_coercion parseNone demoSchema "created").2.1
      (by decide)).2.1 "notadate" rfl,
    ((claim_C8_value_coercion parseDemo demoSchema "created").2.1
      (by decide)).2.2 "2024-01-02" demoDate rfl,
    ((claim_C8_value_coercion parseNone demoSchema "title").2.2
      (by decide)).1 "abc",
    ((claim_C8_value_coercion parseNone demoSchema "title").2.2
      (by decide)).2.1 true,
    ((claim_C8_value_coercion parseNone demoSchema "title").2.2
      (by decide)).2.2.1 [255, 16],
    ((claim_C8_value_coercion parseNone demoSchema "title").2.2
      (by decide)).2.2.2 7⟩

/-! ### Batch Transfer Engine claims -/

/-- A transfer whose second window holds rows but whose bulk loads all
fail. -/
def transferEnvCE : TransferEnv :=
  ⟨12000, fun o => if o = 0 then 10000 else 2000,
   fun _ => Except.error "Violation of PRIMARY KEY constraint"⟩

/-- Counterexample to claim C1 as stated: in transferTableData
(src/unnamed/part_002 lines 324 to 387, the Batch Transfer Engine), the
bulk-load failure of window 0 ends the table transfer with 0 rows
transferred; the second window, which holds 2000 rows, is never fetched,
and the Row-Level Fallback is never invoked for any window. -/
theorem claim_C1_counterexample :
    transferTableData transferEnvCE =
      { transferred := 0, total := 12000,
        trace := [TransferEvent.bulkFail 0 "Violation of PRIMARY KEY constraint"] } ∧
    0 < transferEnvCE.fetchCount 10000 ∧
    (∀ o s, TransferEvent.fallbackRun o s ∉ (transferTableData transferEnvCE).trace) := by
  refine ⟨by decide, by decide, ?_⟩
  intro o s
  rw [show (transferTableData transferEnvCE).trace =
    [TransferEvent.bulkFail 0 "Violation of PRIMARY KEY constraint"] by decide]
  simp

/-- The transferTableData paging loop never issues a fallback event. -/
lemma transferTableDataGo_no_fallback (env : TransferEnv) :
    ∀ (fuel offset insertedCount : Nat) (trace : List TransferEvent),
      (∀ o s, TransferEvent.fallbackRun o s ∉ trace) →
      ∀ o s, TransferEvent.fallbackRun o s ∉
        (transferTableDataGo env fuel offset insertedCount trace).snd := by
  intro fuel
  induction fuel with
  | zero => intro offset ins trace h o s; exact h o s
  | succ f ih =>
    intro offset ins trace h o s
    simp only [transferTableDataGo]
    by_cases h1 : offset < env.totalRows
    · rw [if_pos h1]
      by_cases h2 : 0 < env.fetchCount offset
      · rw [if_pos h2]
        cases hb : env.bulkOutcome offset with
        | ok u =>
          exact ih (offset + 10000) (ins + env.fetchCount offset)
            (trace ++ [TransferEvent.bulkOk offset (env.fetchCount offset)])
            (fun o2 s2 hmem => by
              rcases List.mem_append.mp hmem with hm | hm
              · exact h o2 s2 hm
              · simp at hm) o s
        | error msg =>
          intro hmem
          rcases List.mem_append.mp hmem with hm | hm
          · exact h o s hm
          · simp at hm
      · rw [if_neg h2]
        exact ih (offset + 10000) ins trace h o s
    · rw [if_neg h1]
      exact h o s

/-- Amended claim C1, what the code actually does.  In transferTableData
a failed bulk load of a window with rows ends the paging loop at once:
the rows transferred so far and the failure event are returned, later
windows are not visited, and no run of transferTableData ever invokes
the Row-Level Fallback.  In retransferTableData
(src/unnamed/part_002 lines 62 to 135) a window whose bulk load fails
with a message matching the data-type-error test is retried through the
Row-Level Fallback for that window only, the number of rows that
succeeded is recorded, and paging continues at the next offset; a
failure with any other message aborts the retransfer of the table. -/
theorem claim_C1_amended :
    (∀ (env : TransferEnv) (fuel offset insertedCount : Nat)
       (trace : List TransferEvent) (msg : String),
      offset < env.totalRows → 0 < env.fetchCount offset →
      env.bulkOutcome offset = Except.error msg →
      transferTableDataGo env (fuel + 1) offset insertedCount trace =
        (insertedCount, trace ++ [TransferEvent.bulkFail offset msg]))
  ∧ (∀ (env : TransferEnv) (o s : Nat),
      TransferEvent.fallbackRun o s ∉ (transferTableData env).trace)
  ∧ (∀ (ρ : Type) (env : RetransferEnv ρ) (fuel offset insertedCount : Nat)
       (trace : List TransferEvent) (n : Nat) (msg : String),
      offset < env.totalRows → env.fetchOutcome offset = Except.ok n →
      0 < n → env.bulkOutcome offset = Except.error msg →
      isDataTypeError msg = true →
      retransferTableDataGo env (fuel + 1) offset insertedCount trace =
        retransferTableDataGo env fuel (offset + 5000)
          (insertedCount +
            transferBatchIndividually (env.fallbackFetch offset) env.rowInsert)
          (trace ++ [TransferEvent.fallbackRun offset
            (transferBatchIndividually (env.fallbackFetch offset) env.rowInsert)]))
  ∧ (∀ (ρ : Type) (env : RetransferEnv ρ) (fuel offset insertedCount : Nat)
       (trace : List TransferEvent) (n : Nat) (msg : String),
      offset < env.totalRows → env.fetchOutcome offset = Except.ok n →
      0 < n → env.bulkOutcome offset = Except.error msg →
      isDataTypeError msg = false →
      retransferTableDataGo env (fuel + 1) offset insertedCount trace =
        Except.error msg) := by
  refine ⟨?_, ?_, ?_, ?_⟩
  · intro env fuel offset insertedCount trace msg h1 h2 h3
    simp [transferTableDataGo, if_pos h1, if_pos h2, h3]
  · intro env o s
    simp only [transferTableData]
    by_cases h0 : env.totalRows = 0
    · rw [if_pos h0]
      simp
    · rw [if_neg h0]
      exact transferTableDataGo_no_fallback env _ 0 0 [] (by simp) o s
  · intro ρ env fuel offset insertedCount trace n msg h1 hf hn hb hd
    simp [retransferTableDataGo, if_pos h1, hf, if_pos hn, hb, hd]
  · intro ρ env fuel offset insertedCount trace n msg h1 hf hn hb hd
    simp [retransferTableDataGo, if_pos h1, hf, if_pos hn, hb, hd]

/-- A retransfer whose first window hits a data-type bulk failure and
whose row-level fallback inserts two of three rows. -/
def retransferEnvW : RetransferEnv Nat :=
  ⟨7000, fun o => Except.ok (if o = 0 then 5000 else 2000),
   fun o => if o = 0 then Except.error "OLE DB provider raised an error" else Except.ok (),
   fun _ => [1, 2, 3],
   fun r => if r = 2 then Except.error "bad row" else Except.ok ()⟩

/-- The same retransfer, failing with a message the catch block does not
recognize. -/
def retransferEnvAbort : RetransferEnv Nat :=
  ⟨7000, fun o => Except.ok (if o = 0 then 5000 else 2000),
   fun _ => Except.error "Transaction was deadlocked",
   fun _ => [1, 2, 3],
   fun r => if r = 2 then Except.error "bad row" else Except.ok ()⟩

/-- Witness for the amended claim C1: the break on bulk failure in
transferTableData, the absence of fallback events there, the
fallback-and-continue step of retransferTableData on a recognized
message, and the abort on an unrecognized one. -/
theorem claim_C1_witness :
    transferTableDataGo transferEnvCE (3 + 1) 0 0 [] =
      (0, [TransferEvent.bulkFail 0 "Violation of PRIMARY KEY constraint"]) ∧
    TransferEvent.fallbackRun 0 5 ∉ (transferTableData transferEnvCE).trace ∧
    retransferTableDataGo retransferEnvW (1 + 1) 0 0 [TransferEvent.clearTarget] =
      retransferTableDataGo retransferEnvW 1 5000
        (0 + transferBatchIndividually (retransferEnvW.fallbackFetch 0)
          retransferEnvW.rowInsert)
        ([TransferEvent.clearTarget] ++ [TransferEvent.fallbackRun 0
          (transferBatchIndividually (retransferEnvW.fallbackFetch 0)
            retransferEnvW.rowInsert)]) ∧
    retransferTableDataGo retransferEnvAbort (1 + 1) 0 0 [TransferEvent.clearTarget] =
      Except.error "Transaction was deadlocked" := by
  refine ⟨?_, ?_, ?_, ?_⟩
  · exact claim_C1_amended.1 transferEnvCE 3 0 0 []
      "Violation of PRIMARY KEY constraint" (by decide) (by decide) rfl
  · exact claim_C1_amended.2.1 transferEnvCE 0 5
  · exact claim_C1_amended.2.2.1 Nat retransferEnvW 1 0 0
      [TransferEvent.clearTarget] 5000 "OLE DB provider raised an error"
      (by decide) (by decide) (by decide) rfl (by decide)
  · exact claim_C1_amended.2.2.2 Nat retransferEnvAbort 1 0 0
      [TransferEvent.clearTarget] 5000 "Transaction was deadlocked"
      (by decide) (by decide) (by decide) rfl (by decide)

/-! ### Repair Orchestrator claims -/

/-- Counterexample to claim C2 as stated: a table whose verification
carries one STRUCTURE issue and no data issue is recreated by the fix
loop of fixDatabaseIssues but receives no data retransfer at all. -/
theorem claim_C2_counterexample :
    fixTableActions "Orders"
      [Issue.mk IssueType.STRUCTURE "Column count mismatch"] =
      [FixAction.fixStructure "Orders"] ∧
    FixAction.retransferData "Orders" ∉
      fixTableActions "Orders"
        [Issue.mk IssueType.STRUCTURE "Column count mismatch"] := by
  decide

/-- Every successful run of the retransfer paging loop only appends to
the trace it is given. -/
lemma retransferGo_trace_extends {ρ : Type} (env : RetransferEnv ρ) :
    ∀ (fuel offset ins : Nat) (trace : List TransferEvent) (r : Nat)
      (t : List TransferEvent),
      retransferTableDataGo env fuel offset ins trace = Except.ok (r, t) →
      ∃ t2, t = trace ++ t2 := by
  intro fuel
  induction fuel with
  | zero =>
    intro offset ins trace r t h
    simp only [retransferTableDataGo] at h
    obtain ⟨-, h2⟩ := Prod.mk.injEq .. ▸ (Except.ok.inj h)
    exact ⟨[], by simp [← h2]⟩
  | succ f ih =>
    intro offset ins trace r t h
    simp only [retransferTableDataGo] at h
    split at h
    · split at h
      · split at h
        · obtain ⟨t2, ht⟩ := ih _ _ _ _ _ h
          exact ⟨_, by rw [ht, List.append_assoc]⟩
        · cases h
      · split at h
        · split at h
          · split at h
            · obtain ⟨t2, ht⟩ := ih _ _ _ _ _ h
              exact ⟨_, by rw [ht, List.append_assoc]⟩
            · cases h
          · obtain ⟨t2, ht⟩ := ih _ _ _ _ _ h
            exact ⟨_, by rw [ht, List.append_assoc]⟩
        · obtain ⟨t2, ht⟩ := ih _ _ _ _ _ h
          exact ⟨t2, ht⟩
    · obtain ⟨-, h2⟩ := Prod.mk.injEq .. ▸ (Except.ok.inj h)
      exact ⟨[], by simp [← h2]⟩

/-- Amended claim C2, what the fix loop of fixDatabaseIssues actually
does per problematic table.  A table with both a STRUCTURE issue and a
data issue (ROW_COUNT or DATA_CHECKSUM) is recreated first and then
retransferred; a table with only data issues is retransferred with no
recreation; a table with only a STRUCTURE issue is recreated (its target
data backed up to a side table, the table rebuilt from the SOURCE
schema) but receives NO data retransfer; and every retransfer starts by
clearing the target table. -/
theorem claim_C2_amended :
    (∀ (table : String) (issues : List Issue),
      issues.any isStructureIssue = true → issues.any isDataIssue = true →
      fixTableActions table issues =
        [FixAction.fixStructure table, FixAction.retransferData table])
  ∧ (∀ (table : String) (issues : List Issue),
      issues.any isStructureIssue = false → issues.any isDataIssue = true →
      fixTableActions table issues = [FixAction.retransferData table])
  ∧ (∀ (table : String) (issues : List Issue),
      issues.any isStructureIssue = true → issues.any isDataIssue = false →
      fixTableActions table issues = [FixAction.fixStructure table])
  ∧ (∀ (table : String) (sourceSchema : List ColumnDescriptor),
      fixTableStructureTrace table sourceSchema =
        [ "DROP TABLE IF EXISTS [" ++ table ++ "_backup]",
          "SELECT * INTO [" ++ table ++ "_backup] FROM [" ++ table ++ "]",
          "DROP TABLE [" ++ table ++ "]",
          generateCreateTableSQL table sourceSchema ])
  ∧ (∀ (env : RetransferEnv Nat) (r : Nat) (t : List TransferEvent),
      retransferTableData env = Except.ok (r, t) →
      ∃ t2, t = TransferEvent.clearTarget :: t2) := by
  refine ⟨?_, ?_, ?_, ?_, ?_⟩
  · intro table issues h1 h2
    simp [fixTableActions, h1, h2]
  · intro table issues h1 h2
    simp [fixTableActions, h1, h2]
  · intro table issues h1 h2
    simp [fixTableActions, h1, h2]
  · intro table sourceSchema
    rfl
  · intro env r t h
    simp only [retransferTableData] at h
    split at h
    · obtain ⟨-, h2⟩ := Prod.mk.injEq .. ▸ (Except.ok.inj h)
      exact ⟨[], by simp [← h2]⟩
    · obtain ⟨t2, ht⟩ := retransferGo_trace_extends env _ _ _ _ _ _ h
      exact ⟨t2, by simpa using ht⟩

/-- A retransfer environment for an empty source table. -/
def retransferEnvZero : RetransferEnv Nat :=
  ⟨0, fun _ => Except.ok 0, fun _ => Except.ok (), fun _ => [],
   fun _ => Except.ok ()⟩

/-- Witness for the amended claim C2: each branch of the fix decision on
a concrete issue list, the recreation statement trace on a concrete
schema, and a concrete retransfer whose trace starts with the clear. -/
theorem claim_C2_witness :
    fixTableActions "T"
      [Issue.mk IssueType.STRUCTURE "a", Issue.mk IssueType.ROW_COUNT "b"] =
      [FixAction.fixStructure "T", FixAction.retransferData "T"] ∧
    fixTableActions "T" [Issue.mk IssueType.DATA_CHECKSUM "c"] =
      [FixAction.retransferData "T"] ∧
    fixTableActions "T" [Issue.mk IssueType.STRUCTURE "a"] =
      [FixAction.fixStructure "T"] ∧
    fixTableStructureTrace "T" [colId] =
      [ "DROP TABLE IF EXISTS [" ++ "T" ++ "_backup]",
        "SELECT * INTO [" ++ "T" ++ "_backup] FROM [" ++ "T" ++ "]",
        "DROP TABLE [" ++ "T" ++ "]",
        generateCreateTableSQL "T" [colId] ] ∧
    (∃ t2, [TransferEvent.clearTarget] = TransferEvent.clearTarget :: t2) := by
  refine ⟨?_, ?_, ?_, ?_, ?_⟩
  · exact claim_C2_amended.1 "T" _ (by decide) (by decide)
  · exact claim_C2_amended.2.1 "T" _ (by decide) (by decide)
  · exact claim_C2_amended.2.2.1 "T" _ (by decide) (by decide)
  · exact claim_C2_amended.2.2.2.1 "T" [colId]
  · exact claim_C2_amended.2.2.2.2 retransferEnvZero 0
      [TransferEvent.clearTarget] rfl

end EmergencyRestore
